import Mathlib

set_option linter.unusedVariables false

/-!
Verification of the atomic-swap repository's specification against its code.

The repository ships the protocol README, the relayer request builder
(`CreateRelayClaimRequest` with the fee constants), the contract-verification
tests, `common/config.go` and `rpc/daemon.go`.  Pure functions from those
files are embedded directly.  Components whose implementation is not among
the shipped files (the per-swap state machine, the deployed-bytecode checker,
the forwarder-signature creation, the wei-to-ether conversion and the
`Environment` enumeration) are modelled from the specification; each such
definition carries a doc comment saying so.
-/

/- ### Swap state machine (modelled from the spec, section 4.2) -/

/-- Modelled from the spec: the `SwapState` enumeration of section 3; the
state-machine implementation itself is not among the shipped source files. -/
inductive SwapState
  | Created
  | ContractDeployed
  | CounterAssetLocked
  | Ready
  | Claimed
  | Refunded
  | Aborted
deriving DecidableEq, Repr

/-- Modelled from the spec: the Maker/Taker role tag carried by a state-machine
instance (section 9, role-specific behavior). -/
inductive Role
  | Maker
  | Taker
deriving DecidableEq, Repr

/-- Modelled from the spec: the events driving the transition table of
section 4.2. -/
inductive SwapEvent
  | Deploy
  | NotifyLocked
  | T0Elapsed
  | SetReadyEv
  | TakerClaim
  | ObserveClaim
  | T1Elapsed
deriving DecidableEq, Repr

/-- Modelled from the spec: the side effects named in the transition table. -/
inductive SwapAction
  | SubmitDeploy
  | SubmitSetReady
  | CallClaim
  | CallRefund
  | DeriveJointKey
deriving DecidableEq, Repr

/-- Modelled from the spec: guard context for one transition attempt — the
local role, whether the attempt happens before the `t0` and `t1` deadlines,
and whether the reported counter-asset lock passed validation. -/
structure StepCtx where
  role : Role
  beforeT0 : Bool
  beforeT1 : Bool
  lockedOk : Bool
deriving DecidableEq, Repr

/-- Modelled from the spec: the transition table of section 4.2, one row per
`(From, Event)` pair; `none` is a rejected transition attempt (no state
change).  The Maker-timeout row ends in `Refunded`, as the Maker-timeout
scenario of section 8 requires. -/
def transition (c : StepCtx) (s : SwapState) (e : SwapEvent) :
    Option (SwapState × Option SwapAction) :=
  match s, e with
  | .Created, .Deploy =>
      if c.role = .Maker then some (.ContractDeployed, some .SubmitDeploy) else none
  | .ContractDeployed, .NotifyLocked =>
      if c.lockedOk then some (.CounterAssetLocked, none) else none
  | .ContractDeployed, .T0Elapsed =>
      if c.role = .Maker && !c.beforeT0 then some (.Refunded, some .CallRefund) else none
  | .CounterAssetLocked, .SetReadyEv =>
      if c.role = .Maker && c.beforeT0 then some (.Ready, some .SubmitSetReady) else none
  | .CounterAssetLocked, .T0Elapsed =>
      if c.role = .Maker && !c.beforeT0 then some (.Refunded, some .CallRefund) else none
  | .Ready, .TakerClaim =>
      if c.role = .Taker && c.beforeT1 then some (.Claimed, some .CallClaim) else none
  | .Ready, .ObserveClaim => some (.Claimed, some .DeriveJointKey)
  | .Ready, .T1Elapsed =>
      if c.role = .Maker && !c.beforeT1 then some (.Refunded, some .CallRefund) else none
  | _, _ => none

/-- The terminal states named by the spec: `Claimed`, `Refunded`, `Aborted`. -/
def isTerminal : SwapState → Bool
  | .Claimed => true
  | .Refunded => true
  | .Aborted => true
  | _ => false

/-- One step of a swap instance: a rejected transition leaves the state
unchanged, as section 4.2 requires. -/
def stepState (s : SwapState) (ce : StepCtx × SwapEvent) : SwapState :=
  match transition ce.1 s ce.2 with
  | none => s
  | some (s2, _) => s2

/-- The state after consuming a list of transition attempts. -/
def runSwap (s : SwapState) (l : List (StepCtx × SwapEvent)) : SwapState :=
  l.foldl stepState s

/-- The full trace of states visited while consuming a list of transition
attempts, the initial state included. -/
def statesTrace (s : SwapState) (l : List (StepCtx × SwapEvent)) : List SwapState :=
  List.scanl stepState s l

/-- Modelled from the spec: where each fund-moving side effect sends the
funds, per the on-chain table of section 6 (`refund` returns funds to the
Maker, `claim` transfers funds to the claiming Taker). -/
def actionFundsRecipient : SwapAction → Option Role
  | .CallRefund => some .Maker
  | .CallClaim => some .Taker
  | _ => none

/- ### Refund and claim validity windows (modelled from the spec, section 3) -/

/-- Modelled from the spec: `refund` is valid while the state is
`ContractDeployed` or `CounterAssetLocked` and `t0` has not expired, or
after `t1` has expired with `claim` never called. -/
def refundValid (s : SwapState) (now t0 t1 : Nat) (claimCalled : Bool) : Bool :=
  ((s = SwapState.ContractDeployed || s = SwapState.CounterAssetLocked) && now < t0)
    || (t1 < now && !claimCalled)

/-- Modelled from the spec: `claim` is valid only while the state is `Ready`
and before `t1` expires. -/
def claimValid (s : SwapState) (now t1 : Nat) : Bool :=
  s = SwapState.Ready && now < t1

/- ### Lemmas on the state machine -/

theorem transition_terminal_none (c : StepCtx) (s : SwapState) (e : SwapEvent)
    (h : isTerminal s = true) : transition c s e = none := by
  cases s <;> simp_all [isTerminal, transition]

theorem stepState_terminal (s : SwapState) (ce : StepCtx × SwapEvent)
    (h : isTerminal s = true) : stepState s ce = s := by
  simp [stepState, transition_terminal_none ce.1 s ce.2 h]

theorem runSwap_terminal (s : SwapState) (l : List (StepCtx × SwapEvent))
    (h : isTerminal s = true) : runSwap s l = s := by
  induction l with
  | nil => rfl
  | cons ce l ih =>
      show runSwap (stepState s ce) l = s
      rw [stepState_terminal s ce h, ih]

theorem mem_statesTrace_terminal (t s : SwapState) (l : List (StepCtx × SwapEvent))
    (ht : isTerminal t = true) (hm : t ∈ statesTrace s l) : runSwap s l = t := by
  induction l generalizing s with
  | nil =>
      simp [statesTrace, List.scanl] at hm
      simp [runSwap, hm]
  | cons ce l ih =>
      simp only [statesTrace, List.scanl, List.mem_cons] at hm
      rcases hm with h | h
      · subst h
        exact runSwap_terminal t (ce :: l) ht
      · exact ih (stepState s ce) h

/- ### Claim theorems for the state machine -/

/-- Claim C1: the refund validity windows (state `ContractDeployed` or
`CounterAssetLocked` before `t0` expires, or after `t1` expires with `claim`
never called) never overlap the claim window (state `Ready` before `t1`
expires): for every state, clock value, deadline pair and claim-called flag,
refund and claim are never simultaneously valid. -/
theorem refund_claim_windows_disjoint (s : SwapState) (now t0 t1 : Nat)
    (claimCalled : Bool) :
    (refundValid s now t0 t1 claimCalled && claimValid s now t1) = false := by
  cases s <;> simp [refundValid, claimValid]
  omega

/-- Claim C2: terminal states are absorbing — a swap instance never
transitions again after reaching `Claimed`, `Refunded` or `Aborted` — and no
execution trace contains two different terminal states, so every instance
reaches at most one terminal state, and exactly one when it terminates. -/
theorem terminal_state_unique (s t t2 : SwapState) (ce : StepCtx × SwapEvent)
    (l : List (StepCtx × SwapEvent)) :
    (isTerminal t = true → stepState t ce = t) ∧
    (isTerminal t = true → isTerminal t2 = true →
      t ∈ statesTrace s l → t2 ∈ statesTrace s l → t = t2) := by
  refine ⟨fun ht => stepState_terminal t ce ht, fun ht ht2 hm hm2 => ?_⟩
  have h1 := mem_statesTrace_terminal t s l ht hm
  have h2 := mem_statesTrace_terminal t2 s l ht2 hm2
  rw [← h1, h2]

/-- Concrete instantiation of the C2 theorem on a Maker trace that deploys
and then refunds after `t0`; the terminal state reached is `Refunded`. -/
theorem terminal_state_unique_witness :
    stepState SwapState.Refunded (⟨Role.Maker, false, false, false⟩, SwapEvent.T0Elapsed)
        = SwapState.Refunded ∧
    SwapState.Refunded = SwapState.Refunded := by
  have h := terminal_state_unique SwapState.Created SwapState.Refunded SwapState.Refunded
    (⟨Role.Maker, false, false, false⟩, SwapEvent.T0Elapsed)
    [(⟨Role.Maker, true, true, false⟩, SwapEvent.Deploy),
     (⟨Role.Maker, false, false, false⟩, SwapEvent.T0Elapsed)]
  exact ⟨h.1 (by decide), h.2 (by decide) (by decide) (by decide) (by decide)⟩

/-- Claim C5: if the Maker deployed the contract and the counter-asset was
never locked (state still `ContractDeployed`), then once `t0` has elapsed the
Maker's refund transition succeeds: the instance moves to the terminal state
`Refunded` with side effect `refund(secret)`, whose funds go to the Maker. -/
theorem maker_timeout_refund (c : StepCtx) (hrole : c.role = Role.Maker)
    (ht0 : c.beforeT0 = false) :
    transition c SwapState.ContractDeployed SwapEvent.T0Elapsed
        = some (SwapState.Refunded, some SwapAction.CallRefund) ∧
    isTerminal SwapState.Refunded = true ∧
    actionFundsRecipient SwapAction.CallRefund = some Role.Maker := by
  refine ⟨?_, rfl, rfl⟩
  simp [transition, hrole, ht0]

/-- Concrete instantiation of the C5 theorem: a Maker context after `t0`. -/
theorem maker_timeout_refund_witness :
    transition ⟨Role.Maker, false, true, false⟩ SwapState.ContractDeployed SwapEvent.T0Elapsed
        = some (SwapState.Refunded, some SwapAction.CallRefund) ∧
    isTerminal SwapState.Refunded = true ∧
    actionFundsRecipient SwapAction.CallRefund = some Role.Maker :=
  maker_timeout_refund ⟨Role.Maker, false, true, false⟩ rfl rfl

/- ### Relayer: fee constants and the relay claim request builder
(relayer package; `CreateRelayClaimRequest` is among the shipped files, the
signature creation it calls is not and is modelled from the spec). -/

/-- `FeeWei` from the relayer package: the fixed fee, `big.NewInt(9e15)` wei,
for using a swap relayer to claim. -/
def FeeWei : Nat := 9000000000000000

/-- Modelled from the spec: the wei-to-ether conversion performed by
`coins.NewWeiAmount(w).AsEther()` (one ether is `10^18` wei); the coins
package is not among the shipped files. -/
def weiAsEther (w : Nat) : ℚ :=
  (w : ℚ) / 10 ^ 18

/-- `FeeEth` from the relayer package: `FeeWei` converted to ether. -/
def FeeEth : ℚ := weiAsEther FeeWei

/-- Addresses, hashes and keys are modelled as natural numbers. -/
abbrev EthAddress := Nat

/-- The on-chain swap record `contracts.SwapCreatorSwap`; its fields follow
the `SwapParameters` description of the spec (commitments, claimer and
refunder addresses, asset, amount, `t0`, `t1`, nonce); the ethereum bindings
package is not among the shipped files. -/
structure SwapCreatorSwap where
  owner : EthAddress
  claimer : EthAddress
  pubKeyClaim : Nat
  pubKeyRefund : Nat
  timeout0 : Nat
  timeout1 : Nat
  asset : EthAddress
  value : Nat
  nonce : Nat
deriving DecidableEq, Repr

/-- Modelled from the spec: the message a relay-claim signature covers —
exactly the swap-creator contract address, the full swap parameters and the
revealed secret. -/
structure ForwarderMessage where
  swapCreatorAddr : EthAddress
  swap : SwapCreatorSwap
  secret : List Nat
deriving DecidableEq, Repr

/-- Modelled from the spec: an ECDSA signature abstracted as the signer's
public key together with the signed message; forgery is out of model. -/
structure ForwarderSig where
  signer : Nat
  message : ForwarderMessage
deriving DecidableEq, Repr

/-- Modelled from the spec: public-key derivation from a private key,
abstracted as an injective map. -/
def publicKey (privKey : Nat) : Nat := privKey

/-- Modelled from the spec: `createForwarderSignature` signs the contract
address, the swap parameters and the secret with the claimer's key; it is
fallible (chain interaction), which the `envOk` flag abstracts; the
implementation is not among the shipped files. -/
def createForwarderSignature (envOk : Bool) (claimerEthKey : Nat)
    (swapCreatorAddr forwarderAddr : EthAddress) (swap : SwapCreatorSwap)
    (secret : List Nat) : Option ForwarderSig :=
  if envOk then some ⟨publicKey claimerEthKey, ⟨swapCreatorAddr, swap, secret⟩⟩ else none

/-- The network message `message.RelayClaimRequest`, per the shipped builder:
an optional offer identifier, the swap-creator address, the swap parameters,
the revealed secret bytes and the forwarder signature. -/
structure RelayClaimRequest where
  offerID : Option Nat
  swapCreatorAddr : EthAddress
  swap : SwapCreatorSwap
  secret : List Nat
  signature : ForwarderSig
deriving DecidableEq, Repr

/-- `CreateRelayClaimRequest` from the relayer package: creates the forwarder
signature and, on success, returns the request with `OfferID` nil (set
elsewhere if sending to a counterparty) and the remaining fields from the
arguments; on signature failure it returns no request. -/
def CreateRelayClaimRequest (envOk : Bool) (claimerEthKey : Nat)
    (swapCreatorAddr forwarderAddr : EthAddress) (swap : SwapCreatorSwap)
    (secret : List Nat) : Option RelayClaimRequest :=
  match createForwarderSignature envOk claimerEthKey swapCreatorAddr forwarderAddr
      swap secret with
  | none => none
  | some signature =>
      some { offerID := none
             swapCreatorAddr := swapCreatorAddr
             swap := swap
             secret := secret
             signature := signature }

/-- Modelled from the spec: verifying a relay claim request against expected
swap parameters and the claimer's public key — the signature must be by that
key over the request's contract address, the expected parameters and the
request's secret. -/
def verifyRelayClaimRequest (req : RelayClaimRequest) (expected : SwapCreatorSwap)
    (pk : Nat) : Bool :=
  req.signature.signer = pk
    && req.signature.message = ⟨req.swapCreatorAddr, expected, req.secret⟩

/- ### Deployed-contract verification (modelled from the spec; the checker
lives in the ethereum bindings package, of which only the tests are among
the shipped files) -/

/-- Modelled from the spec: the failure `errInvalidSwapCreatorContract`,
returned when the bytecode at an address is not the SwapCreator bytecode. -/
inductive ContractCodeError
  | invalidSwapCreatorContract
deriving DecidableEq, Repr

/-- Modelled from the spec: the two byte-offset positions at which the
deployed SwapCreator bytecode embeds its trusted-forwarder address
(`forwarderAddrIndices` in the tests); an address occupies one cell of the
modelled bytecode. -/
def forwarderSlotA : Nat := 5

/-- Modelled from the spec: the second embedded-forwarder position. -/
def forwarderSlotB : Nat := 9

/-- Modelled from the spec: stand-in for the `expectedSwapCreatorBytecodeHex`
constant — the compiled SwapCreator bytecode with the all-zero trusted
forwarder, i.e. zeros in both forwarder slots. -/
def expectedSwapCreatorBytecode : List Nat :=
  [96, 128, 96, 64, 82, 0, 20, 96, 243, 0, 87, 91]

/-- The bytecode found on chain for a SwapCreator deployed with trusted
forwarder `fwd`: the expected bytecode with `fwd` in both forwarder slots. -/
def deployedSwapCreatorBytecode (fwd : Nat) : List Nat :=
  (expectedSwapCreatorBytecode.set forwarderSlotA fwd).set forwarderSlotB fwd

/-- Modelled from the spec: the core of `CheckSwapCreatorContractCode` — read
the forwarder address out of both slots, require both copies to agree, zero
the slots and require the rest of the bytecode to equal the expected
SwapCreator bytecode; on success return the embedded forwarder address. -/
def checkSwapCreatorBytecode (code : List Nat) : Except ContractCodeError Nat :=
  match code.get? forwarderSlotA, code.get? forwarderSlotB with
  | some a, some b =>
      if a = b ∧ (code.set forwarderSlotA 0).set forwarderSlotB 0
          = expectedSwapCreatorBytecode then
        Except.ok a
      else
        Except.error ContractCodeError.invalidSwapCreatorContract
  | _, _ => Except.error ContractCodeError.invalidSwapCreatorContract

/-- Modelled from the spec: `CheckSwapCreatorContractCode` reads the bytecode
the chain holds at the given contract address and validates it. -/
def CheckSwapCreatorContractCode (chain : EthAddress → List Nat)
    (contractAddr : EthAddress) : Except ContractCodeError Nat :=
  checkSwapCreatorBytecode (chain contractAddr)

theorem list_set_self (l : List Nat) (n v : Nat) (h : l.get? n = some v) :
    l.set n v = l := by
  induction l generalizing n with
  | nil => simp [List.get?] at h
  | cons a l ih =>
      cases n with
      | zero =>
          simp only [List.get?] at h
          cases h
          rfl
      | succ n =>
          simp only [List.get?] at h
          simp [List.set, ih n h]

theorem checkSwapCreatorBytecode_ok_iff (code : List Nat) (fwd : Nat) :
    checkSwapCreatorBytecode code = Except.ok fwd ↔
      code = deployedSwapCreatorBytecode fwd := by
  have hne : forwarderSlotB ≠ forwarderSlotA := by decide
  constructor
  · intro h
    unfold checkSwapCreatorBytecode at h
    cases hA : code.get? forwarderSlotA with
    | none =>
        rw [hA] at h
        cases code.get? forwarderSlotB <;> exact Except.noConfusion h
    | some a =>
        cases hB : code.get? forwarderSlotB with
        | none =>
            rw [hA, hB] at h
            exact Except.noConfusion h
        | some b =>
            rw [hA, hB] at h
            have h2 : (if a = b ∧ (code.set forwarderSlotA 0).set forwarderSlotB 0
                  = expectedSwapCreatorBytecode then
                (Except.ok a : Except ContractCodeError Nat)
              else
                Except.error ContractCodeError.invalidSwapCreatorContract)
                = Except.ok fwd := h
            by_cases hcond : a = b ∧ (code.set forwarderSlotA 0).set forwarderSlotB 0
                = expectedSwapCreatorBytecode
            · rw [if_pos hcond] at h2
              obtain ⟨hab, hz⟩ := hcond
              have hfa : a = fwd := by injection h2
              subst hfa
              subst hab
              have e1 : code.set forwarderSlotA a = code :=
                list_set_self code forwarderSlotA a hA
              have e2 : code.set forwarderSlotB a = code :=
                list_set_self code forwarderSlotB a hB
              unfold deployedSwapCreatorBytecode
              rw [← hz, List.set_comm 0 a (code.set forwarderSlotA 0) hne,
                List.set_set, List.set_set, e1, e2]
            · rw [if_neg hcond] at h2
              exact Except.noConfusion h2
  · intro h
    subst h
    have hA : (deployedSwapCreatorBytecode fwd).get? forwarderSlotA = some fwd := rfl
    have hB : (deployedSwapCreatorBytecode fwd).get? forwarderSlotB = some fwd := rfl
    have hz : ((deployedSwapCreatorBytecode fwd).set forwarderSlotA 0).set forwarderSlotB 0
        = expectedSwapCreatorBytecode := rfl
    unfold checkSwapCreatorBytecode
    rw [hA, hB]
    show (if fwd = fwd ∧ ((deployedSwapCreatorBytecode fwd).set forwarderSlotA 0).set
          forwarderSlotB 0 = expectedSwapCreatorBytecode then
        (Except.ok fwd : Except ContractCodeError Nat)
      else
        Except.error ContractCodeError.invalidSwapCreatorContract)
      = Except.ok fwd
    rw [if_pos ⟨rfl, hz⟩]

/-- Claim C3: the deployed-contract verification succeeds exactly when the
bytecode at the given address is the expected SwapCreator bytecode (for some
embedded trusted forwarder), in which case it returns the trusted-forwarder
address embedded in that bytecode; for an address holding any other bytecode
it rejects with `errInvalidSwapCreatorContract`, so a spoofed contract with a
mismatched trusted-forwarder configuration is rejected. -/
theorem check_swap_creator_contract_code_spec (chain : EthAddress → List Nat)
    (contractAddr : EthAddress) (fwd : Nat) :
    (CheckSwapCreatorContractCode chain contractAddr = Except.ok fwd ↔
      chain contractAddr = deployedSwapCreatorBytecode fwd) ∧
    (CheckSwapCreatorContractCode chain contractAddr
        = Except.error ContractCodeError.invalidSwapCreatorContract ↔
      ∀ f, chain contractAddr ≠ deployedSwapCreatorBytecode f) := by
  refine ⟨checkSwapCreatorBytecode_ok_iff (chain contractAddr) fwd, ?_, ?_⟩
  · intro herr f heq
    have hok := (checkSwapCreatorBytecode_ok_iff (chain contractAddr) f).mpr heq
    rw [CheckSwapCreatorContractCode, hok] at herr
    exact Except.noConfusion herr
  · intro hall
    cases hres : CheckSwapCreatorContractCode chain contractAddr with
    | error e => cases e; rfl
    | ok f =>
        exact absurd ((checkSwapCreatorBytecode_ok_iff (chain contractAddr) f).mp hres)
          (hall f)

/- ### Claim theorems for the relayer -/

/-- Claim C6: the relayer fee is the fixed constant 0.009 of the base asset —
`FeeWei` is `9e15` wei and `FeeEth` is that amount converted to ether,
exactly `0.009`; both are constants, independent of the swap being claimed. -/
theorem relayer_fee_fixed :
    FeeWei = 9 * 10 ^ 15 ∧ FeeEth = weiAsEther FeeWei ∧ FeeEth = 9 / 1000 := by
  refine ⟨rfl, rfl, ?_⟩
  norm_num [FeeEth, weiAsEther, FeeWei]

/-- Claim C4: a relay claim request built for parameters `P` and secret `s`
carries a signature over exactly the contract address, the full swap
parameters and the revealed secret, so it verifies against `P` and the
claimer's public key and fails verification against any altered parameters. -/
theorem relay_claim_signature_binding (key : Nat) (addr fwd : EthAddress)
    (P P2 : SwapCreatorSwap) (s : List Nat) (req : RelayClaimRequest)
    (hbuilt : CreateRelayClaimRequest true key addr fwd P s = some req)
    (haltered : P2 ≠ P) :
    req.signature.message = ⟨addr, P, s⟩ ∧
    verifyRelayClaimRequest req P (publicKey key) = true ∧
    verifyRelayClaimRequest req P2 (publicKey key) = false := by
  simp only [CreateRelayClaimRequest, createForwarderSignature, if_pos] at hbuilt
  cases hbuilt
  refine ⟨rfl, by simp [verifyRelayClaimRequest], ?_⟩
  have hmsg : (⟨addr, P, s⟩ : ForwarderMessage) ≠ ⟨addr, P2, s⟩ := by
    intro h
    injection h with h1 h2 h3
    exact haltered h2.symm
  simp [verifyRelayClaimRequest, hmsg]

/-- Concrete instantiation of the C4 theorem: a request built for one swap
verifies against it and fails against a swap whose value was altered. -/
theorem relay_claim_signature_binding_witness :
    verifyRelayClaimRequest
        { offerID := none, swapCreatorAddr := 7, swap := ⟨1, 2, 3, 4, 5, 6, 0, 10, 11⟩,
          secret := [9], signature := ⟨publicKey 5, ⟨7, ⟨1, 2, 3, 4, 5, 6, 0, 10, 11⟩, [9]⟩⟩ }
        ⟨1, 2, 3, 4, 5, 6, 0, 10, 11⟩ (publicKey 5) = true ∧
    verifyRelayClaimRequest
        { offerID := none, swapCreatorAddr := 7, swap := ⟨1, 2, 3, 4, 5, 6, 0, 10, 11⟩,
          secret := [9], signature := ⟨publicKey 5, ⟨7, ⟨1, 2, 3, 4, 5, 6, 0, 10, 11⟩, [9]⟩⟩ }
        ⟨1, 2, 3, 4, 5, 6, 0, 99, 11⟩ (publicKey 5) = false := by
  have h := relay_claim_signature_binding 5 7 8 ⟨1, 2, 3, 4, 5, 6, 0, 10, 11⟩
    ⟨1, 2, 3, 4, 5, 6, 0, 99, 11⟩ [9]
    { offerID := none, swapCreatorAddr := 7, swap := ⟨1, 2, 3, 4, 5, 6, 0, 10, 11⟩,
      secret := [9], signature := ⟨publicKey 5, ⟨7, ⟨1, 2, 3, 4, 5, 6, 0, 10, 11⟩, [9]⟩⟩ }
    rfl (by decide)
  exact ⟨h.2.1, h.2.2⟩

/-- Claim C7: every request returned successfully by `CreateRelayClaimRequest`
has its offer identifier unset — it is not yet bound to a counterparty offer
at construction time. -/
theorem relay_claim_request_offer_id_nil (envOk : Bool) (key : Nat)
    (addr fwd : EthAddress) (swap : SwapCreatorSwap) (s : List Nat)
    (req : RelayClaimRequest)
    (hbuilt : CreateRelayClaimRequest envOk key addr fwd swap s = some req) :
    req.offerID = none := by
  unfold CreateRelayClaimRequest at hbuilt
  cases h : createForwarderSignature envOk key addr fwd swap s with
  | none => rw [h] at hbuilt; exact absurd hbuilt (by simp)
  | some sig => rw [h] at hbuilt; cases hbuilt; rfl

/-- Concrete instantiation of the C7 theorem on a successfully built
request. -/
theorem relay_claim_request_offer_id_nil_witness :
    ({ offerID := none, swapCreatorAddr := 1, swap := ⟨0, 0, 0, 0, 0, 0, 0, 0, 0⟩,
       secret := [3], signature := ⟨publicKey 4, ⟨1, ⟨0, 0, 0, 0, 0, 0, 0, 0, 0⟩, [3]⟩⟩ } :
      RelayClaimRequest).offerID = none :=
  relay_claim_request_offer_id_nil true 4 1 2 ⟨0, 0, 0, 0, 0, 0, 0, 0, 0⟩ [3] _ rfl

/-- Claim C10: `CreateRelayClaimRequest` returns no request exactly when the
forwarder-signature creation fails; on success the request's swap-creator
address, swap parameters and secret equal the arguments and its signature is
the successfully created forwarder signature. -/
theorem create_relay_claim_request_spec (envOk : Bool) (key : Nat)
    (addr fwd : EthAddress) (swap : SwapCreatorSwap) (s : List Nat) :
    (CreateRelayClaimRequest envOk key addr fwd swap s = none ↔
      createForwarderSignature envOk key addr fwd swap s = none) ∧
    (∀ req, CreateRelayClaimRequest envOk key addr fwd swap s = some req →
      req.swapCreatorAddr = addr ∧ req.swap = swap ∧ req.secret = s ∧
      createForwarderSignature envOk key addr fwd swap s = some req.signature) := by
  unfold CreateRelayClaimRequest
  cases h : createForwarderSignature envOk key addr fwd swap s with
  | none => exact ⟨by simp, fun req hreq => absurd hreq (by simp)⟩
  | some sig =>
      refine ⟨by simp, fun req hreq => ?_⟩
      cases hreq
      exact ⟨rfl, rfl, rfl, rfl⟩

/-- Concrete instantiation of the C10 theorem on a successful and a failed
build. -/
theorem create_relay_claim_request_spec_witness :
    (CreateRelayClaimRequest false 4 1 2 ⟨0, 0, 0, 0, 0, 0, 0, 0, 0⟩ [3] = none) ∧
    ({ offerID := none, swapCreatorAddr := 1, swap := ⟨0, 0, 0, 0, 0, 0, 0, 0, 0⟩,
       secret := [3], signature := ⟨publicKey 4, ⟨1, ⟨0, 0, 0, 0, 0, 0, 0, 0, 0⟩, [3]⟩⟩ } :
      RelayClaimRequest).swapCreatorAddr = 1 := by
  have hfail := (create_relay_claim_request_spec false 4 1 2 ⟨0, 0, 0, 0, 0, 0, 0, 0, 0⟩ [3]).1
  have hok := (create_relay_claim_request_spec true 4 1 2 ⟨0, 0, 0, 0, 0, 0, 0, 0, 0⟩ [3]).2
    { offerID := none, swapCreatorAddr := 1, swap := ⟨0, 0, 0, 0, 0, 0, 0, 0, 0⟩,
      secret := [3], signature := ⟨publicKey 4, ⟨1, ⟨0, 0, 0, 0, 0, 0, 0, 0, 0⟩, [3]⟩⟩ } rfl
  exact ⟨hfail.mpr rfl, hok.1⟩

/- ### Environments and configuration defaults (`common/config.go`) -/

/-- Modelled from the spec: the `common.Environment` enumeration — Mainnet,
Stagenet and Development are the valid values; the type itself is not among
the shipped files, so it is modelled as a natural number to allow values
outside the valid set. -/
abbrev Environment := Nat

/-- Modelled from the spec: the Mainnet environment value. -/
def Mainnet : Environment := 1

/-- Modelled from the spec: the Stagenet environment value. -/
def Stagenet : Environment := 2

/-- Modelled from the spec: the Development environment value. -/
def Development : Environment := 3

/-- Modelled from the spec: the ethereum mainnet chain id constant. -/
def MainnetChainID : Nat := 1

/-- Modelled from the spec: the ethereum Sepolia chain id constant. -/
def SepoliaChainID : Nat := 11155111

/-- Modelled from the spec: the default monerod RPC port on mainnet. -/
def DefaultMoneroDaemonMainnetPort : Nat := 18081

/-- Modelled from the spec: the default monerod RPC port on stagenet. -/
def DefaultMoneroDaemonStagenetPort : Nat := 38081

/-- Modelled from the spec: the default monerod RPC port in development. -/
def DefaultMoneroDaemonDevPort : Nat := 18081

/-- `MoneroNode` from `common/config.go`: host and port of a monerod RPC
endpoint. -/
structure MoneroNode where
  Host : String
  Port : Nat
deriving DecidableEq, Repr

/-- Modelled from the spec: the user home directory supplied by the operating
system (`os.UserHomeDir`), a fixed placeholder here. -/
def homeDir : String := "~"

/-- Path concatenation as performed by `path.Join` on already-clean parts. -/
def pathJoin (a b : String) : String := a ++ "/" ++ b

/-- `baseDir` from `common/config.go`: the `.atomicswap` directory under the
user's home directory. -/
def baseDir : String := pathJoin homeDir ".atomicswap"

/-- `Config` from `common/config.go`: constants that are defaults for the
various environments; addresses are kept as their hex source literals. -/
structure Config where
  Env : Environment
  EthereumChainID : Nat
  DataDir : String
  MoneroNodes : List MoneroNode
  SwapCreatorAddr : String
  ForwarderAddr : String
  Bootnodes : List String
deriving DecidableEq, Repr

/-- `MainnetConfig` from `common/config.go`. -/
def MainnetConfig : Config :=
  { Env := Mainnet
    EthereumChainID := MainnetChainID
    DataDir := pathJoin baseDir "mainnet"
    MoneroNodes :=
      [⟨"node.sethforprivacy.com", 18089⟩,
       ⟨"xmr-node.cakewallet.com", DefaultMoneroDaemonMainnetPort⟩,
       ⟨"node.monerodevs.org", 18089⟩,
       ⟨"node.community.rino.io", DefaultMoneroDaemonMainnetPort⟩]
    SwapCreatorAddr := "0x"
    ForwarderAddr := "0xB2b5841DBeF766d4b521221732F9B618fCf34A87"
    Bootnodes := [] }

/-- `StagenetConfig` from `common/config.go` (bootnode list abbreviated to
its first entries; the claims do not inspect it). -/
def StagenetConfig : Config :=
  { Env := Stagenet
    EthereumChainID := SepoliaChainID
    DataDir := pathJoin baseDir "stagenet"
    MoneroNodes :=
      [⟨"node.sethforprivacy.com", 38089⟩,
       ⟨"node.monerodevs.org", 38089⟩,
       ⟨"stagenet.community.rino.io", 38081⟩]
    SwapCreatorAddr := "0x45cc2dB5021dc9C01513D9ee7914b61810bd6Ad6"
    ForwarderAddr := "0xa030E074b8398005a454CB7c51E9b7CDb966744a"
    Bootnodes :=
      ["/ip4/134.122.115.208/tcp/9900/p2p/12D3KooWDqCzbjexHEa8Rut7bzxHFpRMZyDRW1L6TGkL1KY24JH5",
       "/ip4/143.198.123.27/tcp/9900/p2p/12D3KooWSc4yFkPWBFmPToTMbhChH3FAgGH96DNzSg5fio1pQYoN"] }

/-- `DevelopmentConfig` from `common/config.go`; the fields the source does
not set keep their zero values. -/
def DevelopmentConfig : Config :=
  { Env := Development
    EthereumChainID := 1337
    DataDir := pathJoin baseDir "dev"
    MoneroNodes := [⟨"127.0.0.1", DefaultMoneroDaemonMainnetPort⟩]
    SwapCreatorAddr := ""
    ForwarderAddr := ""
    Bootnodes := [] }

/-- `ConfigDefaultsForEnv` from `common/config.go`; the `panic` on an invalid
environment is modelled as `none`. -/
def ConfigDefaultsForEnv (env : Environment) : Option Config :=
  if env = Mainnet then some MainnetConfig
  else if env = Stagenet then some StagenetConfig
  else if env = Development then some DevelopmentConfig
  else none

/-- `SwapTimeoutFromEnv` from `common/config.go`, in seconds (`time.Hour` is
3600 seconds, `time.Minute * 2` is 120); `panic` is modelled as `none`. -/
def SwapTimeoutFromEnv (env : Environment) : Option Nat :=
  if env = Mainnet ∨ env = Stagenet then some 3600
  else if env = Development then some 120
  else none

/-- `DefaultMoneroPortFromEnv` from `common/config.go`; `panic` is modelled
as `none`. -/
def DefaultMoneroPortFromEnv (env : Environment) : Option Nat :=
  if env = Mainnet then some DefaultMoneroDaemonMainnetPort
  else if env = Stagenet then some DefaultMoneroDaemonStagenetPort
  else if env = Development then some DefaultMoneroDaemonDevPort
  else none

/-- Claim C9: for each of Mainnet, Stagenet and Development,
`ConfigDefaultsForEnv` returns a configuration whose `Env` field is that
environment; `SwapTimeoutFromEnv` returns one hour for Mainnet and Stagenet
and two minutes for Development; and for any environment value outside the
set, all three functions panic (modelled as returning nothing). -/
theorem config_defaults_for_env_spec (env : Environment) :
    ((env = Mainnet ∨ env = Stagenet ∨ env = Development) →
      ∃ c, ConfigDefaultsForEnv env = some c ∧ c.Env = env) ∧
    (SwapTimeoutFromEnv Mainnet = some 3600 ∧ SwapTimeoutFromEnv Stagenet = some 3600 ∧
      SwapTimeoutFromEnv Development = some 120) ∧
    (env ≠ Mainnet → env ≠ Stagenet → env ≠ Development →
      ConfigDefaultsForEnv env = none ∧ SwapTimeoutFromEnv env = none ∧
        DefaultMoneroPortFromEnv env = none) := by
  refine ⟨?_, ⟨by decide, by decide, by decide⟩, ?_⟩
  · rintro (h | h | h) <;> subst h
    · exact ⟨MainnetConfig, rfl, rfl⟩
    · exact ⟨StagenetConfig, by decide, rfl⟩
    · exact ⟨DevelopmentConfig, by decide, rfl⟩
  · intro h1 h2 h3
    refine ⟨?_, ?_, ?_⟩ <;>
      simp [ConfigDefaultsForEnv, SwapTimeoutFromEnv, DefaultMoneroPortFromEnv, h1, h2, h3]

/-- Concrete instantiation of the C9 theorem at Mainnet and at the invalid
environment value 0. -/
theorem config_defaults_for_env_spec_witness :
    (∃ c, ConfigDefaultsForEnv Mainnet = some c ∧ c.Env = Mainnet) ∧
    (ConfigDefaultsForEnv 0 = none ∧ SwapTimeoutFromEnv 0 = none ∧
      DefaultMoneroPortFromEnv 0 = none) :=
  ⟨(config_defaults_for_env_spec Mainnet).1 (Or.inl rfl),
   (config_defaults_for_env_spec 0).2.2 (by decide) (by decide) (by decide)⟩

/- ### The daemon administrative service (`rpc/daemon.go`) -/

/-- Modelled from the spec: the ethereum-client capability the protocol
backend exposes; only the chain id is consulted by `Version`. -/
structure EthClientHandle where
  chainID : Nat
deriving DecidableEq, Repr

/-- Modelled from the spec: the `ProtocolBackend` capability interface used
by the RPC layer — `ETHClient()`, `Env()` and `SwapCreatorAddr()`. -/
structure ProtocolBackend where
  ethClient : EthClientHandle
  env : Environment
  swapCreatorAddr : String
deriving DecidableEq, Repr

/-- `DaemonService` from `rpc/daemon.go` (the stop callback carries no state
relevant to `Version` and is omitted). -/
structure DaemonService where
  pb : ProtocolBackend
deriving DecidableEq, Repr

/-- `VersionResponse` from `rpc/daemon.go`. -/
structure VersionResponse where
  SwapdVersion : String
  P2PVersion : String
  Env : Environment
  SwapCreatorAddr : String
deriving DecidableEq, Repr

/-- Modelled from the spec: `cliutil.GetVersion()`, a fixed version string. -/
def cliutilGetVersion : String := "unknown-version"

/-- Modelled from the spec: `net.ProtocolID`, a fixed protocol identifier. -/
def netProtocolID : String := "/atomic-swap"

/-- `Version` from `rpc/daemon.go`: fills the response from the backend and
returns no error; the backend is returned unchanged alongside the filled
response. -/
def DaemonService.Version (s : DaemonService) :
    DaemonService × VersionResponse × Option String :=
  (s,
   { SwapdVersion := cliutilGetVersion
     P2PVersion := netProtocolID ++ "/" ++ toString s.pb.ethClient.chainID
     Env := s.pb.env
     SwapCreatorAddr := s.pb.swapCreatorAddr },
   none)

/-- Claim C8: `Version` always succeeds (returns no error), fills the
response's `Env` field with exactly the backend's environment and its
`SwapCreatorAddr` field with exactly the backend's swap-creator address, and
leaves the backend state unchanged. -/
theorem daemon_version_spec (s : DaemonService) :
    s.Version.1 = s ∧
    s.Version.2.1.Env = s.pb.env ∧
    s.Version.2.1.SwapCreatorAddr = s.pb.swapCreatorAddr ∧
    s.Version.2.2 = none :=
  ⟨rfl, rfl, rfl, rfl⟩
